import Mathlib

/-!
Shallow embedding of `src/fast-load.py` (a concurrent Box uploader with
retries).  Pure logic is translated function-by-function; network calls are
abstracted by an oracle giving the result of each upload attempt, and
`os.urandom(1)[0]` by an explicit byte parameter.  Durations are rationals.
-/

namespace FastLoad

/-- The value found under the `Retry-After` key of an exception's headers,
as seen by `float(ra) if ra else None` (line 57): the string may be falsy
(`""`), parse to a float, or raise on parsing. -/
inductive RAVal where
  | falsy
  | num (q : ℚ)
  | unparseable
deriving DecidableEq

/-- An exception reaching the `except` block of `upload_with_retries`:
either a `BoxAPIException` carrying a status and headers (outer `Option`:
`e.headers` truthy; inner: the `Retry-After` key present), or any other
exception (network/transport), carrying only its type name. -/
inductive PyExc where
  | boxAPI (status : Int) (headers : Option (Option RAVal))
  | other (name : String)

/-- `isinstance(e, BoxAPIException)`. -/
def isBoxAPI : PyExc → Bool
  | PyExc.boxAPI _ _ => true
  | PyExc.other _ => false

/-- `type(e).__name__`. -/
def excName : PyExc → String
  | PyExc.boxAPI _ _ => "BoxAPIException"
  | PyExc.other n => n

/-- Lines 54-59: `ra = e.headers.get("Retry-After") if e.headers else None;
retry_after = float(ra) if ra else None`, with the `except` branch mapping a
parse failure to `None`. -/
def parseRetryAfter : Option (Option RAVal) → Option ℚ
  | some (some (RAVal.num q)) => some q
  | _ => none

/-- Lines 49-63 (`is_retryable`): returns `(retryable, code, retry_after)`. -/
def is_retryable : PyExc → Bool × Option Int × Option ℚ
  | PyExc.boxAPI code headers =>
    if code = 409 ∨ code = 400 then
      (false, some code, none)
    else
      let retry_after := parseRetryAfter headers
      if code = 429 ∨ (500 ≤ code ∧ code ≤ 599) then
        (true, some code, retry_after)
      else
        (false, some code, none)
  | PyExc.other _ => (true, none, none)

/-- The jitter factor of `backoff_sleep` (line 68):
`0.75 + 0.5 * (os.urandom(1)[0] / 255.0)`, with the random byte explicit. -/
def jitterFactor (b : Fin 256) : ℚ := 3/4 + (1/2) * ((b.val : ℚ) / 255)

/-- Lines 65-69 (`backoff_sleep`): the duration passed to `time.sleep`,
`delay * jitter` where `delay = retry_after if retry_after is not None else
base * (2 ** (attempt - 1))`. -/
def backoff_delay (attempt : ℤ) (base : ℚ) (retry_after : Option ℚ)
    (b : Fin 256) : ℚ :=
  let delay := match retry_after with
    | some r => r
    | none => base * (2 : ℚ) ^ (attempt - 1)
  delay * jitterFactor b

/-- Line 14: `DIRECT_UPLOAD_MAX = 50 * 1024 * 1024`. -/
def DIRECT_UPLOAD_MAX : Nat := 50 * 1024 * 1024

/-- The two transfer strategies of lines 94-97. -/
inductive Strategy where
  | whole
  | chunked
deriving DecidableEq

/-- Lines 94-97: `if file_path.stat().st_size <= DIRECT_UPLOAD_MAX:
upload_small else upload_large`. -/
def selectStrategy (size : Nat) : Strategy :=
  if size ≤ DIRECT_UPLOAD_MAX then Strategy.whole else Strategy.chunked

/-- Result of one run of `upload_with_retries` on one file (lines 83-110):
the returned pair `(file_id, err)` — the path is threaded through
unchanged and omitted — instrumented with the number of upload calls made
(`calls`) and the number of `backoff_sleep` invocations (`sleeps`). -/
structure RunResult where
  fileId : Option String
  err : Option String
  calls : Nat
  sleeps : Nat
deriving DecidableEq

/-- Python `f"{code or 'n/a'}"` on `code : Optional[int]` (line 106):
`None` and the falsy `0` render as `n/a`. -/
def codeOrNA : Option Int → String
  | some c => if c = 0 then "n/a" else toString c
  | none => "n/a"

/-- How one iteration of the `while True` body exits: with a result
(`return` on lines 98, 102, 104, 106), or by falling through to the retry
logic of lines 107-110 with the caught exception. -/
inductive StepResult where
  | done (r : RunResult)
  | retry (e : PyExc)

/-- Lines 93-106 of the loop body: the `try` with the upload call (whose
result is `res`), then — on failure — the 409, 400 and non-retryable
early returns, in source order.  `retry e` means execution reaches the
`attempt += 1` line. -/
def attemptStep (res : Except PyExc String) : StepResult :=
  match res with
  | Except.ok fid =>
    StepResult.done { fileId := some fid, err := none, calls := 1, sleeps := 0 }
  | Except.error e =>
    let v := is_retryable e
    if isBoxAPI e ∧ v.2.1 = some 409 then
      StepResult.done
        { fileId := none, err := some "skipped: 409 Conflict (name exists)",
          calls := 1, sleeps := 0 }
    else if isBoxAPI e ∧ v.2.1 = some 400 then
      StepResult.done
        { fileId := none, err := some "skipped: 400 Bad Request",
          calls := 1, sleeps := 0 }
    else if v.1 = false then
      StepResult.done
        { fileId := none,
          err := some ("failed: HTTP " ++ codeOrNA v.2.1 ++ " " ++ excName e),
          calls := 1, sleeps := 0 }
    else
      StepResult.retry e

/-- The `while True` loop of `upload_with_retries` (lines 91-110).  The
attempt at counter value `a` is `oracle a` (success gives the uploaded
file's id).  The Python check `attempt > retries` after the increment is
rendered by the countdown `remaining = retries - attempt`, which reaches
`0` exactly when the incremented counter would exceed `retries`; the loop
recurses structurally on `remaining`, sleeping (`backoff_sleep`, counted in
`sleeps`) before each re-attempt. -/
def uploadLoopGo (oracle : Nat → Except PyExc String) (retries : Nat) :
    Nat → Nat → RunResult
  | 0, attempt =>
    match attemptStep (oracle attempt) with
    | StepResult.done r => r
    | StepResult.retry e =>
      { fileId := none,
        err := some ("failed after " ++ toString retries ++ " retries: "
          ++ excName e),
        calls := 1, sleeps := 0 }
  | r + 1, attempt =>
    match attemptStep (oracle attempt) with
    | StepResult.done res => res
    | StepResult.retry _ =>
      let rest := uploadLoopGo oracle retries r (attempt + 1)
      { rest with calls := rest.calls + 1, sleeps := rest.sleeps + 1 }

/-- `upload_with_retries` (lines 83-110): the loop starts with
`attempt = 0`, so `retries` retries remain. -/
def upload_with_retries (oracle : Nat → Except PyExc String)
    (retries : Nat) : RunResult :=
  uploadLoopGo oracle retries retries 0

/-- Python `str.startswith`: character-prefix test on the string data. -/
def startswith (s pre : String) : Bool := List.isPrefixOf pre.data s.data

/-- Python truthiness of `Optional[str]`: `None` and `""` are falsy. -/
def pyTruthy : Option String → Bool
  | none => false
  | some s => !s.isEmpty

/-- The three counters of `main` (lines 137-139). -/
inductive Category where
  | ok
  | skipped
  | failed
deriving DecidableEq

/-- The `if err is None and file_id / elif err and err.startswith("skipped")
/ else` cascade of lines 146-154, deciding which counter a result
increments. -/
def outcomeCat (fileId err : Option String) : Category :=
  if err = none ∧ pyTruthy fileId then Category.ok
  else if pyTruthy err ∧ startswith (err.getD "") "skipped" then
    Category.skipped
  else Category.failed

/-- The counters `ok`, `skipped`, `failed` of `main`. -/
structure RunSummary where
  ok : Nat
  skipped : Nat
  failed : Nat
deriving DecidableEq

/-- One iteration of the result loop of lines 145-154: exactly one counter
is incremented, chosen by `outcomeCat`. -/
def tallyStep (s : RunSummary) (r : Option String × Option String) :
    RunSummary :=
  match outcomeCat r.1 r.2 with
  | Category.ok => { s with ok := s.ok + 1 }
  | Category.skipped => { s with skipped := s.skipped + 1 }
  | Category.failed => { s with failed := s.failed + 1 }

/-- The whole result loop of lines 145-154, starting from
`ok = skipped = failed = 0`. -/
def tally (rs : List (Option String × Option String)) : RunSummary :=
  rs.foldl tallyStep ⟨0, 0, 0⟩

/-- What `main` produces after the client is built (lines 131-157): the
return value (process exit status), the `no files to upload` message when
printed, and the total number of upload calls performed.  Each file is
modelled by the oracle describing its attempts. -/
structure MainResult where
  exit : Nat
  message : Option String
  calls : Nat
deriving DecidableEq

/-- Lines 131-157 of `main`: `if not files: print("no files to upload");
return 0`, otherwise run `upload_with_retries` per file, tally the results
and `return 0 if failed == 0 else 1`. -/
def mainModel (oracles : List (Nat → Except PyExc String))
    (retries : Nat) : MainResult :=
  if oracles.isEmpty then
    { exit := 0, message := some "no files to upload", calls := 0 }
  else
    let results := oracles.map (fun o => upload_with_retries o retries)
    let summary := tally (results.map (fun r => (r.fileId, r.err)))
    { exit := if summary.failed = 0 then 0 else 1,
      message := none,
      calls := (results.map RunResult.calls).sum }

/-! ### Helper lemmas -/

/-- Summing the three counters after a fold: each step adds exactly one. -/
lemma tally_foldl_total (rs : List (Option String × Option String)) :
    ∀ s : RunSummary,
      (rs.foldl tallyStep s).ok + (rs.foldl tallyStep s).skipped
          + (rs.foldl tallyStep s).failed
        = s.ok + s.skipped + s.failed + rs.length := by
  induction rs with
  | nil => intro s; simp
  | cons r rs ih =>
    intro s
    simp only [List.foldl_cons, List.length_cons]
    rw [ih]
    unfold tallyStep
    cases outcomeCat r.1 r.2 <;> simp <;> omega

/-- A `failed: HTTP ...` line is neither `None` nor a `skipped` line, so it
lands on the `failed` counter. -/
lemma outcomeCat_failed_http (c n : String) :
    outcomeCat none (some ("failed: HTTP " ++ c ++ " " ++ n))
      = Category.failed := by
  simp [outcomeCat, startswith, pyTruthy]

/-- A `failed after ... retries: ...` line lands on the `failed` counter. -/
lemma outcomeCat_failed_after (r nm : String) :
    outcomeCat none (some ("failed after " ++ r ++ " retries: " ++ nm))
      = Category.failed := by
  simp [outcomeCat, startswith, pyTruthy]

/-! ### Claims -/

/-- C5: the transfer strategy selection chooses the single-shot upload when
`size ≤ DIRECT_UPLOAD_MAX` and the chunked upload when `size >
DIRECT_UPLOAD_MAX`; at the boundary the whole upload is chosen. -/
theorem C5_strategy_selection (size : Nat) :
    (selectStrategy size = Strategy.whole ↔ size ≤ DIRECT_UPLOAD_MAX)
    ∧ (selectStrategy size = Strategy.chunked ↔ DIRECT_UPLOAD_MAX < size)
    ∧ selectStrategy DIRECT_UPLOAD_MAX = Strategy.whole := by
  refine ⟨?_, ?_, ?_⟩ <;> unfold selectStrategy <;>
    split_ifs with h <;> simp_all

/-- C6: each result increments exactly one counter (every step raises the
counter total by exactly one), so on completion `ok + skipped + failed`
equals the number of tasks submitted. -/
theorem C6_outcome_partition (rs : List (Option String × Option String)) :
    (∀ (s : RunSummary) (r : Option String × Option String),
      (tallyStep s r).ok + (tallyStep s r).skipped + (tallyStep s r).failed
        = s.ok + s.skipped + s.failed + 1)
    ∧ (tally rs).ok + (tally rs).skipped + (tally rs).failed = rs.length := by
  constructor
  · intro s r
    unfold tallyStep
    cases outcomeCat r.1 r.2 <;> simp <;> omega
  · unfold tally
    rw [tally_foldl_total]
    simp

/-- C7: the process exit status is the success code `0` if and only if zero
tasks ended in a `Failed` outcome. -/
theorem C7_exit_success_iff_no_failures
    (oracles : List (Nat → Except PyExc String)) (retries : Nat) :
    (mainModel oracles retries).exit = 0 ↔
      (tally ((oracles.map (fun o => upload_with_retries o retries)).map
        (fun r => (r.fileId, r.err)))).failed = 0 := by
  unfold mainModel
  cases oracles with
  | nil => simp [tally]
  | cons o os =>
    simp only [List.isEmpty_cons, if_false, Bool.false_eq_true]
    split_ifs with h <;> simp_all

/-- C10: with an empty file collection the program performs zero upload
attempts, reports `no files to upload`, and exits with code `0`. -/
theorem C10_empty_run (retries : Nat) :
    mainModel [] retries
      = { exit := 0, message := some "no files to upload", calls := 0 } := rfl

/-- Follows the spec's words (§8): status 409 → non-retryable; status 400
→ non-retryable; status 429 or 500-599 → retryable, with the `Retry-After`
header parsed into the hint when present and parseable; any other
structured status → non-retryable; an unstructured error → retryable with
no hint.  To be compared with `is_retryable`, which is translated from the
source. -/
def classifySpec : PyExc → Bool × Option Int × Option ℚ
  | PyExc.boxAPI code headers =>
    if code = 409 then (false, some code, none)
    else if code = 400 then (false, some code, none)
    else if code = 429 ∨ (500 ≤ code ∧ code ≤ 599) then
      (true, some code, parseRetryAfter headers)
    else (false, some code, none)
  | PyExc.other _ => (true, none, none)

/-- C3: `is_retryable` returns exactly one verdict per error, matching the
spec's table: 409 → non-retryable; 400 → non-retryable; 429 or 500-599 →
retryable with the parsed `Retry-After` hint; any other structured status →
non-retryable; unstructured errors → retryable with no hint. -/
theorem C3_classifier_matches_spec (e : PyExc) :
    is_retryable e = classifySpec e := by
  cases e with
  | other n => rfl
  | boxAPI s hd =>
    simp only [is_retryable, classifySpec]
    split_ifs with h1 h2 h3 h4 h5 h6 h7 <;> first | rfl | omega

/-- C9: a non-retryable verdict never carries a retry-after hint, even when
the error's headers include a parseable `Retry-After` value. -/
theorem C9_terminal_verdict_has_no_hint (e : PyExc)
    (h : (is_retryable e).1 = false) : (is_retryable e).2.2 = none := by
  cases e with
  | other n => simp [is_retryable] at h
  | boxAPI s hd =>
    simp only [is_retryable] at h ⊢
    split_ifs at h ⊢ with h1 h2 <;> rfl

/-- Witness for C9: a 418 status with a parseable `Retry-After: 5` header
is classified non-retryable, and the verdict's hint is `None`. -/
theorem C9_witness :
    (is_retryable (PyExc.boxAPI 418 (some (some (RAVal.num 5))))).1 = false
    ∧ (is_retryable (PyExc.boxAPI 418 (some (some (RAVal.num 5))))).2.2
      = none :=
  ⟨by decide, C9_terminal_verdict_has_no_hint _ (by decide)⟩

/-- C2, as the code has it: without a hint the duration is
`base * 2^(attempt-1) * jitterFactor`; with a hint it is
`hint * jitterFactor`; the jitter factor lies in the CLOSED interval
`[3/4, 5/4]` (the random byte 255 attains `5/4` exactly), so for a
nonnegative base the duration is at most — not strictly below —
`5/4` times the unjittered value. -/
theorem C2_amended_backoff (n : ℤ) (base hint : ℚ) (b : Fin 256) :
    backoff_delay n base none b = base * (2 : ℚ) ^ (n - 1) * jitterFactor b
    ∧ backoff_delay n base (some hint) b = hint * jitterFactor b
    ∧ 3/4 ≤ jitterFactor b ∧ jitterFactor b ≤ 5/4
    ∧ (0 ≤ base →
        backoff_delay n base none b ≤ 5/4 * (base * (2 : ℚ) ^ (n - 1))) := by
  have hb0 : (0 : ℚ) ≤ (b.val : ℚ) := by positivity
  have hb1 : (b.val : ℚ) ≤ 255 := by
    have := b.isLt
    exact_mod_cast Nat.le_of_lt_succ this
  have hlo : 3/4 ≤ jitterFactor b := by
    unfold jitterFactor
    nlinarith
  have hhi : jitterFactor b ≤ 5/4 := by
    unfold jitterFactor
    nlinarith
  refine ⟨rfl, rfl, hlo, hhi, fun hbase => ?_⟩
  have hpow : (0 : ℚ) < (2 : ℚ) ^ (n - 1) := by positivity
  have hdel : (0 : ℚ) ≤ base * (2 : ℚ) ^ (n - 1) :=
    mul_nonneg hbase hpow.le
  calc backoff_delay n base none b
      = base * (2 : ℚ) ^ (n - 1) * jitterFactor b := rfl
    _ ≤ base * (2 : ℚ) ^ (n - 1) * (5/4) :=
        mul_le_mul_of_nonneg_left hhi hdel
    _ = 5/4 * (base * (2 : ℚ) ^ (n - 1)) := by ring

/-- Witness for C2 (amended): at attempt 1, base 1, no hint, random byte
0, the delay is `3/4` — equal to `base * 2^0 * jitterFactor`, within
`[3/4, 5/4]` of the unjittered value `1`. -/
theorem C2_witness :
    (0 : ℚ) ≤ 1
    ∧ backoff_delay 1 1 none ⟨0, by norm_num⟩
        = 1 * (2 : ℚ) ^ ((1 : ℤ) - 1) * jitterFactor ⟨0, by norm_num⟩
    ∧ backoff_delay 1 1 none ⟨0, by norm_num⟩
        ≤ 5/4 * (1 * (2 : ℚ) ^ ((1 : ℤ) - 1)) :=
  ⟨by norm_num,
   (C2_amended_backoff 1 1 0 ⟨0, by norm_num⟩).1,
   (C2_amended_backoff 1 1 0 ⟨0, by norm_num⟩).2.2.2.2 (by norm_num)⟩

/-- Counterexample for C2 as stated: with random byte 255 the jitter factor
is exactly `5/4`, not strictly below it, and the delay equals exactly
`5/4` times the unjittered value. -/
theorem C2_counterexample :
    ¬ (jitterFactor ⟨255, by norm_num⟩ < 5/4)
    ∧ backoff_delay 1 1 none ⟨255, by norm_num⟩
      = 5/4 * (1 * (2 : ℚ) ^ ((1 : ℤ) - 1)) := by
  constructor
  · norm_num [jitterFactor]
  · norm_num [backoff_delay, jitterFactor]

/-- A retryable error reaches the `attempt += 1` line: none of the three
early returns (409, 400, non-retryable) fires. -/
lemma attemptStep_retryable (e : PyExc) (hre : (is_retryable e).1 = true) :
    attemptStep (Except.error e) = StepResult.retry e := by
  cases e with
  | other n => rfl
  | boxAPI s hd =>
    simp only [is_retryable] at hre
    simp only [attemptStep, is_retryable, isBoxAPI]
    split_ifs at hre ⊢ with h1 h2 <;> simp_all

/-- When every attempt fails with a retryable error, the loop runs all
`remaining + 1` attempts, sleeps `remaining` times, and ends with the
`failed after N retries` message. -/
lemma uploadLoopGo_all_retryable (oracle : Nat → Except PyExc String)
    (retries : Nat)
    (h : ∀ k, ∃ e, oracle k = Except.error e ∧ (is_retryable e).1 = true) :
    ∀ remaining attempt,
      (uploadLoopGo oracle retries remaining attempt).calls = remaining + 1
      ∧ (uploadLoopGo oracle retries remaining attempt).sleeps = remaining
      ∧ (uploadLoopGo oracle retries remaining attempt).fileId = none
      ∧ ∃ nm, (uploadLoopGo oracle retries remaining attempt).err
          = some ("failed after " ++ toString retries ++ " retries: "
            ++ nm) := by
  intro remaining
  induction remaining with
  | zero =>
    intro attempt
    obtain ⟨e, he, hre⟩ := h attempt
    have hs : attemptStep (oracle attempt) = StepResult.retry e := by
      rw [he]; exact attemptStep_retryable e hre
    refine ⟨?_, ?_, ?_, excName e, ?_⟩ <;> simp [uploadLoopGo, hs]
  | succ r ih =>
    intro attempt
    obtain ⟨e, he, hre⟩ := h attempt
    have hs : attemptStep (oracle attempt) = StepResult.retry e := by
      rw [he]; exact attemptStep_retryable e hre
    obtain ⟨hc, hsl, hf, nm, herr⟩ := ih (attempt + 1)
    refine ⟨?_, ?_, ?_, nm, ?_⟩ <;> simp [uploadLoopGo, hs, hc, hsl, hf, herr]

/-- C4: when every attempt fails with a retryable error, the loop performs
exactly `retries + 1` upload attempts (hence at most that many), sleeps
`retries` times, and returns a `Failed` outcome reporting retry
exhaustion. -/
theorem C4_retry_exhaustion (oracle : Nat → Except PyExc String)
    (retries : Nat)
    (h : ∀ k, ∃ e, oracle k = Except.error e ∧ (is_retryable e).1 = true) :
    (upload_with_retries oracle retries).calls = retries + 1
    ∧ (upload_with_retries oracle retries).sleeps = retries
    ∧ (upload_with_retries oracle retries).fileId = none
    ∧ (∃ nm, (upload_with_retries oracle retries).err
        = some ("failed after " ++ toString retries ++ " retries: " ++ nm))
    ∧ outcomeCat (upload_with_retries oracle retries).fileId
        (upload_with_retries oracle retries).err = Category.failed := by
  obtain ⟨hc, hsl, hf, nm, herr⟩ :=
    uploadLoopGo_all_retryable oracle retries h retries 0
  unfold upload_with_retries at *
  refine ⟨hc, hsl, hf, ⟨nm, herr⟩, ?_⟩
  rw [hf, herr]
  exact outcomeCat_failed_after _ _

/-- Witness for C4: with `retries = 2` and every attempt raising a
connection error, exactly 3 attempts and 2 sleeps occur and the outcome is
`failed after 2 retries: ConnectionError`, counted as a failure. -/
theorem C4_witness :
    (upload_with_retries
        (fun _ => Except.error (PyExc.other "ConnectionError")) 2).calls = 2 + 1
    ∧ (upload_with_retries
        (fun _ => Except.error (PyExc.other "ConnectionError")) 2).sleeps = 2
    ∧ (upload_with_retries
        (fun _ => Except.error (PyExc.other "ConnectionError")) 2).fileId = none
    ∧ (∃ nm, (upload_with_retries
        (fun _ => Except.error (PyExc.other "ConnectionError")) 2).err
        = some ("failed after " ++ toString 2 ++ " retries: " ++ nm))
    ∧ outcomeCat (upload_with_retries
          (fun _ => Except.error (PyExc.other "ConnectionError")) 2).fileId
        (upload_with_retries
          (fun _ => Except.error (PyExc.other "ConnectionError")) 2).err
      = Category.failed :=
  C4_retry_exhaustion (fun _ => Except.error (PyExc.other "ConnectionError")) 2
    (fun _ => ⟨PyExc.other "ConnectionError", rfl, rfl⟩)

/-- C8: a 409 conflict on the first attempt makes the loop return the
`skipped: 409 Conflict` outcome immediately: one upload call in total,
zero backoff sleeps, and the result is counted as skipped. -/
theorem C8_conflict_skips_immediately (oracle : Nat → Except PyExc String)
    (retries : Nat) (hd : Option (Option RAVal))
    (h0 : oracle 0 = Except.error (PyExc.boxAPI 409 hd)) :
    upload_with_retries oracle retries
      = { fileId := none, err := some "skipped: 409 Conflict (name exists)",
          calls := 1, sleeps := 0 }
    ∧ outcomeCat (upload_with_retries oracle retries).fileId
        (upload_with_retries oracle retries).err = Category.skipped := by
  have hstep : attemptStep (oracle 0) = StepResult.done
      { fileId := none, err := some "skipped: 409 Conflict (name exists)",
        calls := 1, sleeps := 0 } := by
    rw [h0]
    simp [attemptStep, is_retryable, isBoxAPI]
  have hrun : upload_with_retries oracle retries
      = { fileId := none, err := some "skipped: 409 Conflict (name exists)",
          calls := 1, sleeps := 0 } := by
    unfold upload_with_retries
    cases retries with
    | zero => simp [uploadLoopGo, hstep]
    | succ r => simp [uploadLoopGo, hstep]
  refine ⟨hrun, ?_⟩
  rw [hrun]
  decide

/-- Witness for C8: a concrete run whose only attempt raises a 409. -/
theorem C8_witness :
    upload_with_retries
        (fun _ => Except.error (PyExc.boxAPI 409 none)) 6
      = { fileId := none, err := some "skipped: 409 Conflict (name exists)",
          calls := 1, sleeps := 0 }
    ∧ outcomeCat (upload_with_retries
          (fun _ => Except.error (PyExc.boxAPI 409 none)) 6).fileId
        (upload_with_retries
          (fun _ => Except.error (PyExc.boxAPI 409 none)) 6).err
      = Category.skipped :=
  C8_conflict_skips_immediately
    (fun _ => Except.error (PyExc.boxAPI 409 none)) 6 none rfl

/-- Counterexample for C1 as stated: a 400 Bad Request is terminal and not
a naming conflict, yet the loop returns the `skipped: 400 Bad Request`
outcome, which `main` counts as skipped — not failed. -/
theorem C1_counterexample :
    (upload_with_retries
        (fun _ => Except.error (PyExc.boxAPI 400 none)) 6).err
      = some "skipped: 400 Bad Request"
    ∧ outcomeCat (upload_with_retries
          (fun _ => Except.error (PyExc.boxAPI 400 none)) 6).fileId
        (upload_with_retries
          (fun _ => Except.error (PyExc.boxAPI 400 none)) 6).err
      = Category.skipped := by
  decide

/-- C1 (amended): a terminal error whose status is neither 409 nor 400 —
any unclassified structured status — yields a `Failed` outcome after a
single attempt; a 400 Bad Request, by contrast, yields a `Skipped`
outcome, exactly like a 409 conflict. -/
theorem C1_amended_terminal_outcomes
    (oracle oracle2 : Nat → Except PyExc String) (retries : Nat) (s : Int)
    (hd hd2 : Option (Option RAVal))
    (h0 : oracle 0 = Except.error (PyExc.boxAPI s hd))
    (h409 : s ≠ 409) (h400 : s ≠ 400) (h429 : s ≠ 429)
    (h5xx : ¬(500 ≤ s ∧ s ≤ 599))
    (h02 : oracle2 0 = Except.error (PyExc.boxAPI 400 hd2)) :
    (upload_with_retries oracle retries).err
      = some ("failed: HTTP " ++ codeOrNA (some s) ++ " " ++ "BoxAPIException")
    ∧ (upload_with_retries oracle retries).calls = 1
    ∧ outcomeCat (upload_with_retries oracle retries).fileId
        (upload_with_retries oracle retries).err = Category.failed
    ∧ (upload_with_retries oracle2 retries).err
      = some "skipped: 400 Bad Request"
    ∧ outcomeCat (upload_with_retries oracle2 retries).fileId
        (upload_with_retries oracle2 retries).err = Category.skipped := by
  have hcond : ¬(s = 409 ∨ s = 400) := by omega
  have h5or : ¬(s = 429 ∨ (500 ≤ s ∧ s ≤ 599)) := by omega
  have hclass : is_retryable (PyExc.boxAPI s hd) = (false, some s, none) := by
    simp only [is_retryable, if_neg hcond, if_neg h5or]
  have hstep : attemptStep (oracle 0) = StepResult.done
      { fileId := none,
        err := some ("failed: HTTP " ++ codeOrNA (some s) ++ " "
          ++ "BoxAPIException"),
        calls := 1, sleeps := 0 } := by
    rw [h0]
    simp only [attemptStep]
    rw [hclass]
    simp [isBoxAPI, excName, h409, h400]
  have hrun : upload_with_retries oracle retries
      = { fileId := none,
          err := some ("failed: HTTP " ++ codeOrNA (some s) ++ " "
            ++ "BoxAPIException"),
          calls := 1, sleeps := 0 } := by
    unfold upload_with_retries
    cases retries with
    | zero => simp [uploadLoopGo, hstep]
    | succ r => simp [uploadLoopGo, hstep]
  have hstep2 : attemptStep (oracle2 0) = StepResult.done
      { fileId := none, err := some "skipped: 400 Bad Request",
        calls := 1, sleeps := 0 } := by
    rw [h02]
    simp [attemptStep, is_retryable, isBoxAPI]
  have hrun2 : upload_with_retries oracle2 retries
      = { fileId := none, err := some "skipped: 400 Bad Request",
          calls := 1, sleeps := 0 } := by
    unfold upload_with_retries
    cases retries with
    | zero => simp [uploadLoopGo, hstep2]
    | succ r => simp [uploadLoopGo, hstep2]
  rw [hrun, hrun2]
  exact ⟨rfl, rfl, outcomeCat_failed_http _ _, rfl, by decide⟩

/-- Witness for C1 (amended): a 403 (unclassified) gives the failed
outcome after one attempt; a 400 gives the skipped outcome. -/
theorem C1_witness :
    (upload_with_retries
        (fun _ => Except.error (PyExc.boxAPI 403 none)) 6).err
      = some ("failed: HTTP " ++ codeOrNA (some 403) ++ " "
        ++ "BoxAPIException")
    ∧ (upload_with_retries
        (fun _ => Except.error (PyExc.boxAPI 403 none)) 6).calls = 1
    ∧ outcomeCat (upload_with_retries
          (fun _ => Except.error (PyExc.boxAPI 403 none)) 6).fileId
        (upload_with_retries
          (fun _ => Except.error (PyExc.boxAPI 403 none)) 6).err
      = Category.failed
    ∧ (upload_with_retries
        (fun _ => Except.error (PyExc.boxAPI 400 none)) 6).err
      = some "skipped: 400 Bad Request"
    ∧ outcomeCat (upload_with_retries
          (fun _ => Except.error (PyExc.boxAPI 400 none)) 6).fileId
        (upload_with_retries
          (fun _ => Except.error (PyExc.boxAPI 400 none)) 6).err
      = Category.skipped :=
  C1_amended_terminal_outcomes
    (fun _ => Except.error (PyExc.boxAPI 403 none))
    (fun _ => Except.error (PyExc.boxAPI 400 none)) 6 403 none none rfl
    (by decide) (by decide) (by decide) (by decide) rfl

end FastLoad
